import Mathlib

/-!
Shallow embedding of the `shipping-api` repository (src/server.js,
src/unnamed/part_000, src/unnamed/part_001) and proofs about its
route handlers.

The repository is a stateless HTTP relay between a payment processor
(Stripe) and a shipping provider (Shippo).  Each Express route handler is
embedded as a total Lean function from an explicit environment (the
responses of the two external services) and the request data to the HTTP
response it sends, together with the list of outbound side-effecting calls
it makes (label purchases at the provider, payment-session creations at
the processor).

JavaScript numbers are modelled as rationals (`ℚ`): every numeric literal
and arithmetic operation appearing in the repository is exact in ℚ, and
`Number(string)` is modelled by a decimal-string parser `jsNumber`
returning `Option ℚ` with `none` standing for `NaN`.
-/

namespace ShippingApi

/-! ## JavaScript number coercion -/

/-- Value of a list of decimal digit characters, most significant first. -/
def digitsToNat (cs : List Char) : Nat :=
  cs.foldl (fun n c => 10 * n + (c.toNat - 48)) 0

/-- Strip leading and trailing whitespace from a character list. -/
def jsTrimChars (cs : List Char) : List Char :=
  ((cs.dropWhile Char.isWhitespace).reverse.dropWhile Char.isWhitespace).reverse

/-- An unsigned decimal mantissa (digits, optional dot, digits) read as an
integer numerator together with the power-of-ten denominator exponent;
`none` models `NaN`. -/
def parseMantissa (cs : List Char) : Option (Nat × Nat) :=
  let intPart := cs.takeWhile (fun c => c != '.')
  let rest := cs.dropWhile (fun c => c != '.')
  match rest with
  | [] =>
      if cs ≠ [] ∧ cs.all Char.isDigit then some (digitsToNat cs, 0) else none
  | '.' :: frac =>
      if (intPart ≠ [] ∨ frac ≠ []) ∧ intPart.all Char.isDigit ∧ frac.all Char.isDigit then
        some (digitsToNat intPart * 10 ^ frac.length + digitsToNat frac, frac.length)
      else none
  | _ :: _ => none

/-- JavaScript `Number(s)` on a string: trims whitespace, the empty string
is `0`, optional sign, decimal mantissa; `none` models `NaN`.  The result
`m / 10^k` is built with `mkRat` so that it is exact. -/
def jsNumber (s : String) : Option ℚ :=
  match jsTrimChars s.data with
  | [] => some 0
  | '-' :: rest => (parseMantissa rest).map (fun p => mkRat (-(p.1 : Int)) (10 ^ p.2))
  | '+' :: rest => (parseMantissa rest).map (fun p => mkRat (p.1 : Int) (10 ^ p.2))
  | cs => (parseMantissa cs).map (fun p => mkRat (p.1 : Int) (10 ^ p.2))

/-- JavaScript `Math.round`: rounds to the nearest integer, halves toward
positive infinity. -/
def mathRound (q : ℚ) : Int := ⌊q + 1 / 2⌋

/-- JavaScript `x || d` for an optional string `x` (absent and `""` are
falsy). -/
def jsOrDefault (o : Option String) (d : String) : String :=
  match o with
  | some s => if s = "" then d else s
  | none => d

/-! ## Shippo data model (as consumed by the handlers) -/

/-- `rate.servicelevel` object. -/
structure Servicelevel where
  name : String
  deriving DecidableEq, Repr

/-- A rate object returned by the provider; `amount` is a decimal string,
as Shippo serialises monetary amounts. -/
structure ShippoRate where
  object_id : String
  provider : String
  servicelevel : Servicelevel
  amount : String
  estimated_days : Nat
  deriving DecidableEq, Repr

/-- `order.to_address`; each subfield may be absent (JS `undefined`). -/
structure ShippoAddress where
  name : Option String
  city : Option String
  state : Option String
  deriving DecidableEq, Repr

/-- A provider order: a possibly absent list of shipment ids and a possibly
absent destination address. -/
structure ShippoOrder where
  shipments : Option (List String)
  to_address : Option ShippoAddress
  deriving DecidableEq, Repr

/-- A provider shipment: its rate list. -/
structure ShippoShipment where
  rates : List ShippoRate
  deriving DecidableEq, Repr

/-! ## Outbound calls -/

/-- Body of a `POST /transactions` label purchase
(`{rate, label_file_type, async}`); `rate` is `Option` because a missing
`metadata.rateId` is serialised as an absent key. -/
structure LabelCall where
  rate : Option String
  label_file_type : String
  async : Bool
  deriving DecidableEq, Repr

/-- The parameters of a `stripe.checkout.sessions.create` call, flattened:
one line item with `price_data {currency, product_data.name, unit_amount}`
and a quantity.  `unit_amount = none` models `NaN`. -/
structure SessionParams where
  mode : String
  currency : String
  product_name : String
  unit_amount : Option Int
  quantity : Nat
  payment_method_types : Option (List String)
  metadata_rateId : Option String
  metadata_orderToken : Option String
  success_url : String
  cancel_url : String
  deriving DecidableEq, Repr

/-- The session object the processor returns. -/
structure CreatedSession where
  url : String
  deriving DecidableEq, Repr

/-- Environment: the behaviour of the two external services during one
request.  Fetch failures are `Except.error msg` where `msg` is the message
of the error thrown by `shippoFetch` (or the SDK). -/
structure Env where
  orders : String → Except String ShippoOrder
  shipments : String → Except String ShippoShipment
  transactionResult : LabelCall → Except String Unit
  stripeCreate : SessionParams → Except String CreatedSession
  baseUrl : String

/-! ## Rate inquiry endpoint -/

/-- A normalized rate entry as returned by `GET /api/shipping/...`. -/
structure NormRate where
  rate_id : String
  carrier : String
  service : String
  amount : Option ℚ
  eta : Nat
  deriving DecidableEq, Repr

/-- The `rates.map(r => ...)` normalisation shared by every variant. -/
def mapRate (r : ShippoRate) : NormRate :=
  { rate_id := r.object_id
    carrier := r.provider
    service := r.servicelevel.name
    amount := jsNumber r.amount
    eta := r.estimated_days }

/-- The `customer` object of a successful rate response. -/
structure Customer where
  name : Option String
  city : Option String
  state : Option String
  deriving DecidableEq, Repr

/-- Body of a rate-inquiry response: success (`customer` is absent in the
part_001 second variant) or a JSON error envelope. -/
inductive ShipBody where
  | success (customer : Option Customer) (rates : List NormRate)
  | failure (error : String) (details : Option String)
  deriving DecidableEq, Repr

/-- An HTTP response: status code and body. -/
structure Resp (β : Type) where
  status : Nat
  body : β
  deriving DecidableEq, Repr

/-- The rate list of a rate-inquiry response (empty for error envelopes). -/
def respRates : Resp ShipBody → List NormRate
  | ⟨_, ShipBody.success _ rs⟩ => rs
  | ⟨_, ShipBody.failure _ _⟩ => []

/-- `GET /api/shipping/:orderToken` of src/server.js (lines 86-116). -/
def getShipping_serverJs (env : Env) (orderToken : String) : Resp ShipBody :=
  match env.orders orderToken with
  | .error _ => ⟨500, .failure "Failed to load shipping" none⟩
  | .ok order =>
    match order.shipments with
    | none => ⟨404, .failure "No shipment found" none⟩
    | some [] => ⟨404, .failure "No shipment found" none⟩
    | some (s0 :: _) =>
      match env.shipments s0 with
      | .error _ => ⟨500, .failure "Failed to load shipping" none⟩
      | .ok shipment =>
        ⟨200, .success
          (some { name := order.to_address.bind (fun a => a.name)
                  city := order.to_address.bind (fun a => a.city)
                  state := order.to_address.bind (fun a => a.state) })
          (shipment.rates.map mapRate)⟩

/-- `GET /api/shipping/:orderToken` of src/unnamed/part_000 (lines
102-143); differs from server.js in the zero-shipments status (400), the
`"Customer"` default for the name, and error details. -/
def getShipping_part000 (env : Env) (orderToken : String) : Resp ShipBody :=
  match env.orders orderToken with
  | .error e => ⟨500, .failure "Failed to load shipping rates" (some e)⟩
  | .ok order =>
    match order.shipments with
    | none => ⟨400, .failure "Order has no shipments. Ensure parcels were added." none⟩
    | some [] => ⟨400, .failure "Order has no shipments. Ensure parcels were added." none⟩
    | some (s0 :: _) =>
      match env.shipments s0 with
      | .error e => ⟨500, .failure "Failed to load shipping rates" (some e)⟩
      | .ok shipment =>
        ⟨200, .success
          (some { name := some (jsOrDefault (order.to_address.bind (fun a => a.name)) "Customer")
                  city := order.to_address.bind (fun a => a.city)
                  state := order.to_address.bind (fun a => a.state) })
          (shipment.rates.map mapRate)⟩

/-- `GET /api/shipping/:sessionId` of src/unnamed/part_001, second variant
(lines 186-202): fetches the shipment directly, returns `{rates}` with no
customer, and reports any fetch failure as 500 with the thrown message. -/
def getShipping_part001v2 (env : Env) (sessionId : String) : Resp ShipBody :=
  match env.shipments sessionId with
  | .error e => ⟨500, .failure e none⟩
  | .ok shipment => ⟨200, .success none (shipment.rates.map mapRate)⟩

/-! ## Checkout endpoint -/

/-- Request body of `POST /api/checkout`; each field may be absent.
`amount` is the client-supplied number used only by the part_001 second
variant. -/
structure CheckoutReq where
  orderToken : Option String
  rateId : Option String
  amount : Option ℚ
  deriving DecidableEq, Repr

/-- Body of a checkout response: `{url}` or a JSON error envelope. -/
inductive CheckoutBody where
  | url (u : String)
  | err (error : String) (details : Option String)
  deriving DecidableEq, Repr

/-- Result of a checkout handler: the HTTP response, and the list of
`sessions.create` calls issued to the processor. -/
structure CheckoutOut where
  resp : Resp CheckoutBody
  sessions : List SessionParams
  deriving DecidableEq, Repr

/-- `POST /api/checkout` of src/server.js (lines 121-153).  A missing
`orderToken` interpolates as the string `"undefined"`; an absent
`order.shipments` makes `order.shipments[0]` throw (caught as 500); the
rate is looked up by `object_id === rateId` and its absence yields
400 `"Invalid rate"`. -/
def checkout_serverJs (env : Env) (req : CheckoutReq) : CheckoutOut :=
  match env.orders (req.orderToken.getD "undefined") with
  | .error _ => ⟨⟨500, .err "Checkout failed" none⟩, []⟩
  | .ok order =>
    match order.shipments with
    | none => ⟨⟨500, .err "Checkout failed" none⟩, []⟩
    | some ss =>
      match env.shipments (ss.headD "undefined") with
      | .error _ => ⟨⟨500, .err "Checkout failed" none⟩, []⟩
      | .ok shipment =>
        match shipment.rates.find? (fun r => req.rateId = some r.object_id) with
        | none => ⟨⟨400, .err "Invalid rate" none⟩, []⟩
        | some rate =>
          let params : SessionParams :=
            { mode := "payment"
              currency := "usd"
              product_name := "Shipping – " ++ rate.provider ++ " " ++ rate.servicelevel.name
              unit_amount := (jsNumber rate.amount).map (fun q => mathRound (q * 100))
              quantity := 1
              payment_method_types := none
              metadata_rateId := req.rateId
              metadata_orderToken := none
              success_url := env.baseUrl ++ "/shipping-success.html"
              cancel_url := env.baseUrl ++ "/shipping-cancelled.html" }
          match env.stripeCreate params with
          | .error _ => ⟨⟨500, .err "Checkout failed" none⟩, [params]⟩
          | .ok s => ⟨⟨200, .url s.url⟩, [params]⟩

/-- `POST /api/checkout` of src/unnamed/part_000 (lines 148-193): checks
`!orderToken || !rateId` up front (JS falsiness: absent or `""`), adds
`payment_method_types: ["card"]`, and attaches `err.message` as details on
failure. -/
def checkout_part000 (env : Env) (req : CheckoutReq) : CheckoutOut :=
  if req.orderToken.getD "" = "" ∨ req.rateId.getD "" = "" then
    ⟨⟨400, .err "Missing orderToken or rateId" none⟩, []⟩
  else
    match env.orders (req.orderToken.getD "undefined") with
    | .error e => ⟨⟨500, .err "Checkout failed" (some e)⟩, []⟩
    | .ok order =>
      match order.shipments with
      | none => ⟨⟨500, .err "Checkout failed" (some "TypeError")⟩, []⟩
      | some ss =>
        match env.shipments (ss.headD "undefined") with
        | .error e => ⟨⟨500, .err "Checkout failed" (some e)⟩, []⟩
        | .ok shipment =>
          match shipment.rates.find? (fun r => req.rateId = some r.object_id) with
          | none => ⟨⟨400, .err "Invalid rate selected" none⟩, []⟩
          | some rate =>
            let params : SessionParams :=
              { mode := "payment"
                currency := "usd"
                product_name := "Shipping – " ++ rate.provider ++ " " ++ rate.servicelevel.name
                unit_amount := (jsNumber rate.amount).map (fun q => mathRound (q * 100))
                quantity := 1
                payment_method_types := some ["card"]
                metadata_rateId := req.rateId
                metadata_orderToken := none
                success_url := env.baseUrl ++ "/shipping-success.html"
                cancel_url := env.baseUrl ++ "/shipping-cancelled.html" }
            match env.stripeCreate params with
            | .error e => ⟨⟨500, .err "Checkout failed" (some e)⟩, [params]⟩
            | .ok s => ⟨⟨200, .url s.url⟩, [params]⟩

/-- `POST /api/checkout` of src/unnamed/part_001, first variant (lines
77-106).  There is no `if (!rate)` guard: when the rate is not found,
`rate.provider` throws a TypeError before `sessions.create` is called and
the catch block answers 500 `"Checkout failed"`.  The session metadata
carries both `orderToken` and `rateId`. -/
def checkout_part001v1 (env : Env) (req : CheckoutReq) : CheckoutOut :=
  match env.orders (req.orderToken.getD "undefined") with
  | .error _ => ⟨⟨500, .err "Checkout failed" none⟩, []⟩
  | .ok order =>
    match order.shipments with
    | none => ⟨⟨500, .err "Checkout failed" none⟩, []⟩
    | some ss =>
      match env.shipments (ss.headD "undefined") with
      | .error _ => ⟨⟨500, .err "Checkout failed" none⟩, []⟩
      | .ok shipment =>
        match shipment.rates.find? (fun r => req.rateId = some r.object_id) with
        | none => ⟨⟨500, .err "Checkout failed" none⟩, []⟩
        | some rate =>
          let params : SessionParams :=
            { mode := "payment"
              currency := "usd"
              product_name := "Shipping – " ++ rate.provider ++ " " ++ rate.servicelevel.name
              unit_amount := (jsNumber rate.amount).map (fun q => mathRound (q * 100))
              quantity := 1
              payment_method_types := none
              metadata_rateId := req.rateId
              metadata_orderToken := req.orderToken
              success_url := env.baseUrl ++ "/shipping-success.html"
              cancel_url := env.baseUrl ++ "/shipping-cancelled.html" }
          match env.stripeCreate params with
          | .error _ => ⟨⟨500, .err "Checkout failed" none⟩, [params]⟩
          | .ok s => ⟨⟨200, .url s.url⟩, [params]⟩

/-- `POST /api/checkout` of src/unnamed/part_001, second variant (lines
207-230): no provider re-fetch at all — the unit amount is
`Math.round(req.body.amount * 100)` from the client, the product name is
fixed, and `rateId` goes unvalidated into the metadata. -/
def checkout_part001v2 (env : Env) (req : CheckoutReq) : CheckoutOut :=
  let params : SessionParams :=
    { mode := "payment"
      currency := "usd"
      product_name := "Shipping Charge"
      unit_amount := req.amount.map (fun q => mathRound (q * 100))
      quantity := 1
      payment_method_types := none
      metadata_rateId := req.rateId
      metadata_orderToken := none
      success_url := env.baseUrl ++ "/success.html"
      cancel_url := env.baseUrl ++ "/cancel.html" }
  match env.stripeCreate params with
  | .error e => ⟨⟨500, .err e none⟩, [params]⟩
  | .ok s => ⟨⟨200, .url s.url⟩, [params]⟩

/-! ## Stripe webhook endpoint -/

/-- The `data.object` of a checkout-session event: its metadata fields. -/
structure StripeSessionObj where
  metadata_orderToken : Option String
  metadata_rateId : Option String
  deriving DecidableEq, Repr

/-- A verified Stripe event: its `type` and `data.object`. -/
structure StripeEvent where
  type : String
  object : StripeSessionObj
  deriving DecidableEq, Repr

/-- The raw webhook request body: the exact bytes (`raw`) plus the event
they encode (`none` when the bytes are not a well-formed event payload). -/
structure WebhookBody where
  raw : String
  payload : Option StripeEvent
  deriving DecidableEq, Repr

/-- Modelled from the spec: the signature the payment processor computes
over the exact raw body with the shared webhook secret (the Stripe SDK's
HMAC is not part of this repository).  Any concrete stand-in that depends
on both secret and body suffices for the handlers' control flow. -/
def expectedSignature (secret : String) (body : WebhookBody) : String :=
  "v1=" ++ secret ++ "." ++ body.raw

/-- Modelled from the spec: `stripe.webhooks.constructEvent(body, sig,
secret)` — reject when the signature header is missing, does not match
the secret-keyed signature of the raw body, or the payload is malformed;
otherwise return the parsed event. -/
def constructEvent (secret : String) (body : WebhookBody) (sig : Option String) :
    Except String StripeEvent :=
  match sig with
  | none => .error "No stripe-signature header"
  | some s =>
    if s = expectedSignature secret body then
      match body.payload with
      | some e => .ok e
      | none => .error "Malformed payload"
    else .error "Signature mismatch"

/-- Body of a webhook HTTP response: the JSON `{received:true}` or a plain
text. -/
inductive WebhookRespBody where
  | json_received
  | text (s : String)
  deriving DecidableEq, Repr

/-- Outcome of a webhook handler invocation: an HTTP response, or the
async handler's promise rejecting after the verification try/catch —
Express sends no response in that case. -/
inductive WebhookResult where
  | response (status : Nat) (body : WebhookRespBody)
  | thrown (msg : String)
  deriving DecidableEq, Repr

/-- Result of a webhook handler: its outcome and the label-purchase calls
it issued to the provider. -/
structure WebhookOut where
  result : WebhookResult
  labelCalls : List LabelCall
  deriving DecidableEq, Repr

/-- `POST /webhook/stripe` of src/server.js (lines 40-75).  The label
purchase is NOT wrapped in try/catch: when `shippoFetch("/transactions")`
rejects, the handler's promise rejects after making the call and no
response is sent. -/
def webhook_serverJs (env : Env) (secret : String) (body : WebhookBody)
    (sig : Option String) : WebhookOut :=
  match constructEvent secret body sig with
  | .error _ => ⟨.response 400 (.text "Webhook Error"), []⟩
  | .ok event =>
    if event.type = "checkout.session.completed" then
      let call : LabelCall := ⟨event.object.metadata_rateId, "PDF", false⟩
      match env.transactionResult call with
      | .error e => ⟨.thrown e, [call]⟩
      | .ok _ => ⟨.response 200 .json_received, [call]⟩
    else ⟨.response 200 .json_received, []⟩

/-- `POST /webhook/stripe` of src/unnamed/part_000 (lines 52-91): same as
server.js except the label purchase sits in its own try/catch — a failure
is logged and `200 {received:true}` is still sent. -/
def webhook_part000 (env : Env) (secret : String) (body : WebhookBody)
    (sig : Option String) : WebhookOut :=
  match constructEvent secret body sig with
  | .error _ => ⟨.response 400 (.text "Webhook Error"), []⟩
  | .ok event =>
    if event.type = "checkout.session.completed" then
      let call : LabelCall := ⟨event.object.metadata_rateId, "PDF", false⟩
      match env.transactionResult call with
      | .error _ => ⟨.response 200 .json_received, [call]⟩
      | .ok _ => ⟨.response 200 .json_received, [call]⟩
    else ⟨.response 200 .json_received, []⟩

/-- `POST /webhook/stripe` of src/unnamed/part_001, first variant (lines
17-43): like server.js — `shippoClient.transaction.create` is not guarded,
so its rejection escapes the handler. -/
def webhook_part001v1 (env : Env) (secret : String) (body : WebhookBody)
    (sig : Option String) : WebhookOut :=
  match constructEvent secret body sig with
  | .error _ => ⟨.response 400 (.text "Webhook Error"), []⟩
  | .ok event =>
    if event.type = "checkout.session.completed" then
      let call : LabelCall := ⟨event.object.metadata_rateId, "PDF", false⟩
      match env.transactionResult call with
      | .error e => ⟨.thrown e, [call]⟩
      | .ok _ => ⟨.response 200 .json_received, [call]⟩
    else ⟨.response 200 .json_received, []⟩

/-- `POST /webhook/stripe` of src/unnamed/part_001, second variant (lines
235-257): one try/catch around everything, so both a verification failure
AND a failed label purchase answer 400 `"Webhook error"`. -/
def webhook_part001v2 (env : Env) (secret : String) (body : WebhookBody)
    (sig : Option String) : WebhookOut :=
  match constructEvent secret body sig with
  | .error _ => ⟨.response 400 (.text "Webhook error"), []⟩
  | .ok event =>
    if event.type = "checkout.session.completed" then
      let call : LabelCall := ⟨event.object.metadata_rateId, "PDF", false⟩
      match env.transactionResult call with
      | .error _ => ⟨.response 400 (.text "Webhook error"), [call]⟩
      | .ok _ => ⟨.response 200 .json_received, [call]⟩
    else ⟨.response 200 .json_received, []⟩

/-! ## The shippoFetch provider client -/

/-- An upstream HTTP response from the provider as the client observes it:
`ok` is `res.ok`, `status` is `res.status`, and `bodyText` is the response
body's canonical JSON text (so `res.text()` returns it and
`JSON.stringify(await res.json())` reproduces it). -/
structure UpstreamResp where
  ok : Bool
  status : Nat
  bodyText : String
  deriving DecidableEq, Repr

/-- JS object spread `{...base, ...extra}` as a key lookup: keys of
`extra` win over keys of `base`. -/
def jsSpreadLookup (base extra : List (String × String)) (k : String) : Option String :=
  match extra.find? (fun q => q.1 = k) with
  | some q => some q.2
  | none => (base.find? (fun q => q.1 = k)).map (fun q => q.2)

/-- The headers `shippoFetch` sends: `Authorization` and `Content-Type`
first, then the caller's `options.headers` spread over them (all three
variants build them identically). -/
def shippoHeaders (token : String) (extra : List (String × String)) :
    String → Option String :=
  jsSpreadLookup
    [("Authorization", "ShippoToken " ++ token), ("Content-Type", "application/json")]
    extra

/-- Response handling of `shippoFetch` in src/server.js (lines 14-30) and
src/unnamed/part_000 (lines 26-42): a non-ok status throws
`` `Shippo error ${res.status}: ${text}` ``; otherwise the JSON body is
returned. -/
def shippoFetchResult_serverJs (resp : UpstreamResp) : Except String String :=
  if resp.ok then .ok resp.bodyText
  else .error ("Shippo error " ++ toString resp.status ++ ": " ++ resp.bodyText)

/-- Response handling of `shippoFetch` in src/unnamed/part_001 (lines
133-146): a non-ok status throws `JSON.stringify(data)` — the parsed body
re-serialised, with no status code. -/
def shippoFetchResult_part001 (resp : UpstreamResp) : Except String String :=
  if resp.ok then .ok resp.bodyText else .error resp.bodyText

/-- `needle` occurs as a contiguous substring of `hay`. -/
def strContains (hay needle : String) : Prop :=
  needle.data <:+: hay.data

instance (hay needle : String) : Decidable (strContains hay needle) :=
  inferInstanceAs (Decidable (needle.data <:+: hay.data))

instance {ε α : Type} [DecidableEq ε] [DecidableEq α] : DecidableEq (Except ε α) :=
  fun a b =>
    match a, b with
    | .ok x, .ok y => if h : x = y then .isTrue (by rw [h]) else .isFalse (by simp [h])
    | .error x, .error y => if h : x = y then .isTrue (by rw [h]) else .isFalse (by simp [h])
    | .ok _, .error _ => .isFalse (by simp)
    | .error _, .ok _ => .isFalse (by simp)

/-! ## Concrete test data (used by witnesses and counterexamples) -/

/-- The rate of the spec's end-to-end scenario. -/
def rateA : ShippoRate := ⟨"RATE_A", "UPS", ⟨"Ground"⟩, "12.50", 3⟩

/-- A malformed provider rate: empty id, negative amount. -/
def rateBad : ShippoRate := ⟨"", "UPS", ⟨"Ground"⟩, "-1.00", 2⟩

/-- A well-behaved environment: one order `ORDER_1` with one shipment
`SHIP_1` carrying `rateA`; every provider/processor call succeeds. -/
def envA : Env :=
  { orders := fun t =>
      if t = "ORDER_1" then
        .ok ⟨some ["SHIP_1"], some ⟨some "Ada", some "Paris", some "TX"⟩⟩
      else .error "Shippo error 404: order not found"
    shipments := fun t =>
      if t = "SHIP_1" then .ok ⟨[rateA]⟩
      else .error "Shippo error 404: shipment not found"
    transactionResult := fun _ => .ok ()
    stripeCreate := fun _ => .ok ⟨"https://pay.example/cs_1"⟩
    baseUrl := "https://base.example" }

/-- Like `envA` but the label-purchase call at the provider fails. -/
def envFailLabel : Env :=
  { envA with transactionResult := fun _ => .error "Shippo error 500: label purchase failed" }

/-- Environment whose order `ORDER_B` has no `to_address` and whose
shipment `SHIP_B` carries the malformed `rateBad`. -/
def envBad : Env :=
  { envA with
    orders := fun t =>
      if t = "ORDER_B" then .ok ⟨some ["SHIP_B"], none⟩
      else .error "Shippo error 404: order not found"
    shipments := fun t =>
      if t = "SHIP_B" then .ok ⟨[rateBad]⟩
      else .error "Shippo error 404: shipment not found" }

/-- Environment whose order `ORDER_E` has one shipment `SHIP_E` with an
empty rate list. -/
def envEmptyRates : Env :=
  { envA with
    orders := fun t =>
      if t = "ORDER_E" then .ok ⟨some ["SHIP_E"], none⟩
      else .error "Shippo error 404: order not found"
    shipments := fun t =>
      if t = "SHIP_E" then .ok ⟨[]⟩
      else .error "Shippo error 404: shipment not found" }

/-- Environment whose order `ORDER_N` has an empty shipments list. -/
def envNoShip : Env :=
  { envA with
    orders := fun t =>
      if t = "ORDER_N" then .ok ⟨some [], none⟩
      else .error "Shippo error 404: order not found" }

/-- A well-formed `checkout.session.completed` webhook payload whose
session metadata carries `rateId = "RATE_A"`. -/
def bodyCompleted : WebhookBody :=
  ⟨"evt_raw_1", some ⟨"checkout.session.completed", ⟨none, some "RATE_A"⟩⟩⟩

/-! ## Helper lemmas -/

lemma mkRat_eq_divCast (n : Int) (d : Nat) : mkRat n d = (n : ℚ) / (d : ℚ) := by
  rw [Rat.mkRat_eq_divInt, Rat.divInt_eq_div]
  norm_num

lemma jsNumber_12_50 : jsNumber "12.50" = some (25 / 2 : ℚ) := by
  rw [show jsNumber "12.50" = some (mkRat 1250 100) from by decide, mkRat_eq_divCast]
  norm_num

lemma roundAmount_rateA :
    (jsNumber rateA.amount).map (fun q => mathRound (q * 100)) = some 1250 := by
  rw [show rateA.amount = "12.50" from rfl, jsNumber_12_50]
  simp [mathRound]
  norm_num

lemma constructEvent_err (secret : String) (body : WebhookBody) {sig : Option String}
    (h : sig ≠ some (expectedSignature secret body)) :
    ∃ m, constructEvent secret body sig = .error m := by
  cases sig with
  | none => exact ⟨_, rfl⟩
  | some s =>
    have hs : s ≠ expectedSignature secret body := fun he => h (by rw [he])
    exact ⟨"Signature mismatch", by simp [constructEvent, hs]⟩

/-! ## Claim theorems -/

/-- C1: the claim says a signature-verified `checkout.session.completed`
event yields exactly one label-purchase call and a 200 `{received:true}`
response even when that call fails.  Evaluated at a failing label
purchase: only part_000 behaves as claimed; src/server.js makes the one
call but its handler's promise rejects, so no response (in particular no
200) is sent, and the part_001 second variant answers 400 instead. -/
theorem C1_webhook_ack_divergence_eval :
    webhook_serverJs envFailLabel "whsec" bodyCompleted
        (some (expectedSignature "whsec" bodyCompleted)) =
      ⟨.thrown "Shippo error 500: label purchase failed", [⟨some "RATE_A", "PDF", false⟩]⟩
    ∧ webhook_part000 envFailLabel "whsec" bodyCompleted
        (some (expectedSignature "whsec" bodyCompleted)) =
      ⟨.response 200 .json_received, [⟨some "RATE_A", "PDF", false⟩]⟩
    ∧ webhook_part001v2 envFailLabel "whsec" bodyCompleted
        (some (expectedSignature "whsec" bodyCompleted)) =
      ⟨.response 400 (.text "Webhook error"), [⟨some "RATE_A", "PDF", false⟩]⟩ := by
  decide

/-- C2: a webhook request whose signature header is missing, malformed or
does not verify against the webhook secret gets HTTP 400 from every
variant's handler and triggers no label-purchase call. -/
theorem C2_invalid_signature_rejected (env : Env) (secret : String) (body : WebhookBody)
    (sig : Option String) (h : sig ≠ some (expectedSignature secret body)) :
    webhook_serverJs env secret body sig = ⟨.response 400 (.text "Webhook Error"), []⟩
    ∧ webhook_part000 env secret body sig = ⟨.response 400 (.text "Webhook Error"), []⟩
    ∧ webhook_part001v1 env secret body sig = ⟨.response 400 (.text "Webhook Error"), []⟩
    ∧ webhook_part001v2 env secret body sig = ⟨.response 400 (.text "Webhook error"), []⟩ := by
  obtain ⟨m, hm⟩ := constructEvent_err secret body h
  refine ⟨?_, ?_, ?_, ?_⟩ <;>
    simp [webhook_serverJs, webhook_part000, webhook_part001v1, webhook_part001v2, hm]

theorem C2_invalid_signature_rejected_witness :
    webhook_serverJs envA "whsec" bodyCompleted none =
      ⟨.response 400 (.text "Webhook Error"), []⟩
    ∧ webhook_part000 envA "whsec" bodyCompleted none =
      ⟨.response 400 (.text "Webhook Error"), []⟩
    ∧ webhook_part001v1 envA "whsec" bodyCompleted none =
      ⟨.response 400 (.text "Webhook Error"), []⟩
    ∧ webhook_part001v2 envA "whsec" bodyCompleted none =
      ⟨.response 400 (.text "Webhook error"), []⟩ :=
  C2_invalid_signature_rejected envA "whsec" bodyCompleted none (by decide)

/-- C3 counterexample: the part_001 second-variant checkout handler prices
the session from the client-supplied `amount` (99 → 9900 cents) although
the provider's rate `RATE_A` prices to 1250 cents, refuting the claim
that the unit amount is never taken from a client-supplied price. -/
theorem C3_checkout_client_amount_counterexample :
    checkout_part001v2 envA ⟨some "ORDER_1", some "RATE_A", some 99⟩ =
      ⟨⟨200, .url "https://pay.example/cs_1"⟩,
        [⟨"payment", "usd", "Shipping Charge", some 9900, 1, none, some "RATE_A", none,
          "https://base.example/success.html", "https://base.example/cancel.html"⟩]⟩
    ∧ envA.shipments "SHIP_1" = .ok ⟨[rateA]⟩
    ∧ rateA.object_id = "RATE_A"
    ∧ (jsNumber rateA.amount).map (fun q => mathRound (q * 100)) = some 1250
    ∧ (9900 : Int) ≠ 1250 := by
  refine ⟨?_, by decide, by decide, roundAmount_rateA, by decide⟩
  have h99 : mathRound ((99 : ℚ) * 100) = 9900 := by norm_num [mathRound]
  simp [checkout_part001v2, envA, h99]

/-- C3 amended: in the server.js, part_000 and part_001 first-variant
checkout handlers, a rateId matching the re-fetched rate set yields one
created session whose unit amount is `round(rate.amount * 100)` computed
from the re-fetched rate (the request's own `amount` field never enters),
and the response is 200 with the session url. -/
theorem C3_checkout_unit_amount_amended (env : Env) (req : CheckoutReq) (tok : String)
    (order : ShippoOrder) (s0 : String) (srest : List String) (shipment : ShippoShipment)
    (rate : ShippoRate) (u : String)
    (htok : req.orderToken = some tok) (htok' : tok ≠ "")
    (hrid : ∃ rid, req.rateId = some rid ∧ rid ≠ "")
    (ho : env.orders tok = .ok order)
    (hs : order.shipments = some (s0 :: srest))
    (hsh : env.shipments s0 = .ok shipment)
    (hfind : shipment.rates.find? (fun r => req.rateId = some r.object_id) = some rate)
    (hstripe : ∀ p, env.stripeCreate p = .ok ⟨u⟩) :
    ((checkout_serverJs env req).resp = ⟨200, .url u⟩
      ∧ (checkout_serverJs env req).sessions.map (fun p => p.unit_amount) =
          [(jsNumber rate.amount).map (fun q => mathRound (q * 100))])
    ∧ ((checkout_part000 env req).resp = ⟨200, .url u⟩
      ∧ (checkout_part000 env req).sessions.map (fun p => p.unit_amount) =
          [(jsNumber rate.amount).map (fun q => mathRound (q * 100))])
    ∧ ((checkout_part001v1 env req).resp = ⟨200, .url u⟩
      ∧ (checkout_part001v1 env req).sessions.map (fun p => p.unit_amount) =
          [(jsNumber rate.amount).map (fun q => mathRound (q * 100))]) := by
  obtain ⟨rid, hrid1, hrid2⟩ := hrid
  have hg2 : req.rateId.getD "" ≠ "" := by simp [hrid1, hrid2]
  refine ⟨?_, ?_, ?_⟩ <;>
    simp [checkout_serverJs, checkout_part000, checkout_part001v1, hg2,
      htok, htok', ho, hs, hsh, hfind, hstripe]

theorem C3_checkout_unit_amount_amended_witness :
    ((checkout_serverJs envA ⟨some "ORDER_1", some "RATE_A", some 99⟩).resp =
        ⟨200, .url "https://pay.example/cs_1"⟩
      ∧ (checkout_serverJs envA ⟨some "ORDER_1", some "RATE_A", some 99⟩).sessions.map
          (fun p => p.unit_amount) =
          [(jsNumber rateA.amount).map (fun q => mathRound (q * 100))]) :=
  (C3_checkout_unit_amount_amended envA ⟨some "ORDER_1", some "RATE_A", some 99⟩ "ORDER_1"
    ⟨some ["SHIP_1"], some ⟨some "Ada", some "Paris", some "TX"⟩⟩ "SHIP_1" []
    ⟨[rateA]⟩ rateA "https://pay.example/cs_1"
    rfl (by decide) ⟨"RATE_A", rfl, by decide⟩ (by decide) rfl (by decide) (by decide)
    (fun p => rfl)).1

/-- C4 counterexample: the part_001 first-variant checkout handler answers
500 "Checkout failed" (not 400) for a rateId absent from the shipment's
rate set, because `rate.provider` throws before any session is created. -/
theorem C4_invalid_rate_counterexample :
    checkout_part001v1 envA ⟨some "ORDER_1", some "RATE_X", none⟩ =
      ⟨⟨500, .err "Checkout failed" none⟩, []⟩
    ∧ envA.shipments "SHIP_1" = .ok ⟨[rateA]⟩
    ∧ rateA.object_id ≠ "RATE_X"
    ∧ (500 : Nat) ≠ 400 := by
  decide

/-- C4 amended: a rateId not present in the re-fetched rate set creates no
payment session in any variant; server.js and part_000 answer 400 with an
invalid-rate error, while the part_001 first variant answers 500
"Checkout failed". -/
theorem C4_invalid_rate_amended (env : Env) (req : CheckoutReq) (tok rid : String)
    (order : ShippoOrder) (s0 : String) (srest : List String) (shipment : ShippoShipment)
    (htok : req.orderToken = some tok) (htok' : tok ≠ "")
    (hrid : req.rateId = some rid) (hrid' : rid ≠ "")
    (ho : env.orders tok = .ok order)
    (hs : order.shipments = some (s0 :: srest))
    (hsh : env.shipments s0 = .ok shipment)
    (hnot : ∀ r ∈ shipment.rates, r.object_id ≠ rid) :
    checkout_serverJs env req = ⟨⟨400, .err "Invalid rate" none⟩, []⟩
    ∧ checkout_part000 env req = ⟨⟨400, .err "Invalid rate selected" none⟩, []⟩
    ∧ checkout_part001v1 env req = ⟨⟨500, .err "Checkout failed" none⟩, []⟩ := by
  have hg2 : req.rateId.getD "" ≠ "" := by simp [hrid, hrid']
  have hfind : shipment.rates.find? (fun r => req.rateId = some r.object_id) = none := by
    rw [List.find?_eq_none]
    intro r hr
    simp [hrid]
    exact fun he => (hnot r hr he.symm).elim
  refine ⟨?_, ?_, ?_⟩ <;>
    simp [checkout_serverJs, checkout_part000, checkout_part001v1, hg2,
      htok, htok', ho, hs, hsh, hfind]

theorem C4_invalid_rate_amended_witness :
    checkout_serverJs envA ⟨some "ORDER_1", some "RATE_X", none⟩ =
      ⟨⟨400, .err "Invalid rate" none⟩, []⟩
    ∧ checkout_part000 envA ⟨some "ORDER_1", some "RATE_X", none⟩ =
      ⟨⟨400, .err "Invalid rate selected" none⟩, []⟩
    ∧ checkout_part001v1 envA ⟨some "ORDER_1", some "RATE_X", none⟩ =
      ⟨⟨500, .err "Checkout failed" none⟩, []⟩ :=
  C4_invalid_rate_amended envA ⟨some "ORDER_1", some "RATE_X", none⟩ "ORDER_1" "RATE_X"
    ⟨some ["SHIP_1"], some ⟨some "Ada", some "Paris", some "TX"⟩⟩ "SHIP_1" []
    ⟨[rateA]⟩ rfl (by decide) rfl (by decide) (by decide) rfl (by decide)
    (by intro r hr; simp at hr; subst hr; decide)

/-- C5 counterexample: a shipment whose rate list is empty yields HTTP 200
with an empty rate list from all three rate-inquiry variants, refuting
the claim that zero rates always produce a 4xx. -/
theorem C5_empty_rates_counterexample :
    getShipping_serverJs envEmptyRates "ORDER_E" = ⟨200, .success (some ⟨none, none, none⟩) []⟩
    ∧ getShipping_part000 envEmptyRates "ORDER_E" =
        ⟨200, .success (some ⟨some "Customer", none, none⟩) []⟩
    ∧ getShipping_part001v2 envEmptyRates "SHIP_E" = ⟨200, .success none []⟩
    ∧ envEmptyRates.shipments "SHIP_E" = .ok ⟨[]⟩ := by
  decide

/-- C5 amended: an order with zero shipments gets a 4xx from the
rate-inquiry endpoint — 404 in server.js, 400 in part_000; a shipment
with zero rates, however, yields 200 with an empty list (see the
counterexample). -/
theorem C5_no_shipments_amended (env : Env) (tok : String) (order : ShippoOrder)
    (ho : env.orders tok = .ok order)
    (hs : order.shipments = none ∨ order.shipments = some []) :
    (getShipping_serverJs env tok).status = 404
    ∧ (getShipping_part000 env tok).status = 400 := by
  rcases hs with hs | hs <;>
    simp [getShipping_serverJs, getShipping_part000, ho, hs]

theorem C5_no_shipments_amended_witness :
    (getShipping_serverJs envNoShip "ORDER_N").status = 404
    ∧ (getShipping_part000 envNoShip "ORDER_N").status = 400 :=
  C5_no_shipments_amended envNoShip "ORDER_N" ⟨some [], none⟩ (by decide) (Or.inr rfl)

/-- C6 counterexample: src/server.js has no missing-field check — a
checkout request without `orderToken` reaches the provider with the token
`"undefined"` and surfaces as a 500 server error, not a 400. -/
theorem C6_missing_field_counterexample :
    checkout_serverJs envA ⟨none, some "RATE_A", none⟩ =
      ⟨⟨500, .err "Checkout failed" none⟩, []⟩
    ∧ (500 : Nat) ≠ 400 := by
  decide

/-- C6 amended: the part_000 checkout handler answers 400 with the JSON
envelope `{error:"Missing orderToken or rateId"}` and creates no session
whenever `orderToken` or `rateId` is missing; server.js performs no such
check and a missing `orderToken` surfaces as a 500 (see the
counterexample). -/
theorem C6_missing_field_amended (env : Env) (req : CheckoutReq)
    (h : req.orderToken = none ∨ req.rateId = none) :
    checkout_part000 env req = ⟨⟨400, .err "Missing orderToken or rateId" none⟩, []⟩ := by
  rcases h with h | h <;> simp [checkout_part000, h]

theorem C6_missing_field_amended_witness :
    checkout_part000 envA ⟨none, some "RATE_A", none⟩ =
      ⟨⟨400, .err "Missing orderToken or rateId" none⟩, []⟩ :=
  C6_missing_field_amended envA ⟨none, some "RATE_A", none⟩ (Or.inl rfl)

/-- C7: the rate-inquiry normalisation maps every provider rate by exactly
rate_id = object_id, carrier = provider, service = servicelevel.name,
amount = Number(amount), eta = estimated_days; in particular the rate
`{object_id:"RATE_A", provider:"UPS", servicelevel:{name:"Ground"},
amount:"12.50", estimated_days:3}` becomes `{rate_id:"RATE_A",
carrier:"UPS", service:"Ground", amount:12.5, eta:3}` in the 200 response
of server.js and part_000. -/
theorem C7_rate_normalization (env : Env) (tok : String) (order : ShippoOrder)
    (s0 : String) (srest : List String) (shipment : ShippoShipment)
    (ho : env.orders tok = .ok order)
    (hs : order.shipments = some (s0 :: srest))
    (hsh : env.shipments s0 = .ok shipment)
    (hr : shipment.rates = [⟨"RATE_A", "UPS", ⟨"Ground"⟩, "12.50", 3⟩]) :
    (∀ r : ShippoRate, mapRate r =
      ⟨r.object_id, r.provider, r.servicelevel.name, jsNumber r.amount, r.estimated_days⟩)
    ∧ (getShipping_serverJs env tok).status = 200
    ∧ respRates (getShipping_serverJs env tok) =
        [⟨"RATE_A", "UPS", "Ground", some (25 / 2 : ℚ), 3⟩]
    ∧ (getShipping_part000 env tok).status = 200
    ∧ respRates (getShipping_part000 env tok) =
        [⟨"RATE_A", "UPS", "Ground", some (25 / 2 : ℚ), 3⟩] := by
  refine ⟨fun r => rfl, ?_, ?_, ?_, ?_⟩ <;>
    simp [getShipping_serverJs, getShipping_part000, respRates, ho, hs, hsh, hr,
      mapRate, jsNumber_12_50]

theorem C7_rate_normalization_witness :
    respRates (getShipping_serverJs envA "ORDER_1") =
      [⟨"RATE_A", "UPS", "Ground", some (25 / 2 : ℚ), 3⟩] :=
  (C7_rate_normalization envA "ORDER_1"
    ⟨some ["SHIP_1"], some ⟨some "Ada", some "Paris", some "TX"⟩⟩
    "SHIP_1" [] ⟨[rateA]⟩ (by decide) rfl (by decide) rfl).2.2.1

/-- C8 counterexample: the endpoint performs no validation — a provider
rate with empty `object_id` and amount `"-1.00"` is returned verbatim in
a 200 response, violating non-negative amount and non-empty rate_id. -/
theorem C8_malformed_rate_counterexample :
    getShipping_serverJs envBad "ORDER_B" =
      ⟨200, .success (some ⟨none, none, none⟩) [⟨"", "UPS", "Ground", some (mkRat (-1) 1), 2⟩]⟩
    ∧ getShipping_part000 envBad "ORDER_B" =
      ⟨200, .success (some ⟨some "Customer", none, none⟩)
        [⟨"", "UPS", "Ground", some (mkRat (-1) 1), 2⟩]⟩
    ∧ mkRat (-1) 1 < 0
    ∧ envBad.shipments "SHIP_B" = .ok ⟨[rateBad]⟩
    ∧ rateBad.object_id = "" := by
  decide

/-- C8 amended: provided every rate of the re-fetched shipment has a
non-empty `object_id` and an amount string parsing to a non-negative
number, every entry of the 200 rate list of both cited variants
(server.js and part_000) has a non-empty rate_id and a non-negative
amount (the map preserves well-formedness; it does not establish it). -/
theorem C8_wellformed_rates_amended (env : Env) (tok : String) (order : ShippoOrder)
    (s0 : String) (srest : List String) (shipment : ShippoShipment)
    (ho : env.orders tok = .ok order)
    (hs : order.shipments = some (s0 :: srest))
    (hsh : env.shipments s0 = .ok shipment)
    (hne : shipment.rates ≠ [])
    (hwf : ∀ r ∈ shipment.rates,
      r.object_id ≠ "" ∧ ∃ q, jsNumber r.amount = some q ∧ 0 ≤ q) :
    ((getShipping_serverJs env tok).status = 200
      ∧ respRates (getShipping_serverJs env tok) ≠ []
      ∧ ∀ nr ∈ respRates (getShipping_serverJs env tok),
          nr.rate_id ≠ "" ∧ ∃ q, nr.amount = some q ∧ 0 ≤ q)
    ∧ ((getShipping_part000 env tok).status = 200
      ∧ respRates (getShipping_part000 env tok) ≠ []
      ∧ ∀ nr ∈ respRates (getShipping_part000 env tok),
          nr.rate_id ≠ "" ∧ ∃ q, nr.amount = some q ∧ 0 ≤ q) := by
  have hmem : ∀ nr ∈ shipment.rates.map mapRate,
      nr.rate_id ≠ "" ∧ ∃ q, nr.amount = some q ∧ 0 ≤ q := by
    intro nr hnr
    rw [List.mem_map] at hnr
    obtain ⟨r, hr, hmap⟩ := hnr
    obtain ⟨h1, q, h2, h3⟩ := hwf r hr
    subst hmap
    exact ⟨by simpa [mapRate] using h1, q, by simpa [mapRate] using h2, h3⟩
  refine ⟨⟨?_, ?_, ?_⟩, ?_, ?_, ?_⟩
  · simp [getShipping_serverJs, ho, hs, hsh]
  · simp [getShipping_serverJs, respRates, ho, hs, hsh, hne]
  · intro nr hnr
    refine hmem nr ?_
    simpa only [getShipping_serverJs, ho, hs, hsh, respRates] using hnr
  · simp [getShipping_part000, ho, hs, hsh]
  · simp [getShipping_part000, respRates, ho, hs, hsh, hne]
  · intro nr hnr
    refine hmem nr ?_
    simpa only [getShipping_part000, ho, hs, hsh, respRates] using hnr

theorem C8_wellformed_rates_amended_witness :
    ((getShipping_serverJs envA "ORDER_1").status = 200
      ∧ respRates (getShipping_serverJs envA "ORDER_1") ≠ [])
    ∧ ((getShipping_part000 envA "ORDER_1").status = 200
      ∧ respRates (getShipping_part000 envA "ORDER_1") ≠ []) :=
  ⟨⟨(C8_wellformed_rates_amended envA "ORDER_1"
      ⟨some ["SHIP_1"], some ⟨some "Ada", some "Paris", some "TX"⟩⟩
      "SHIP_1" [] ⟨[rateA]⟩ (by decide) rfl (by decide) (by decide)
      (by
        intro r hr
        simp at hr
        subst hr
        exact ⟨by decide, 25 / 2, jsNumber_12_50, by norm_num⟩)).1.1,
    (C8_wellformed_rates_amended envA "ORDER_1"
      ⟨some ["SHIP_1"], some ⟨some "Ada", some "Paris", some "TX"⟩⟩
      "SHIP_1" [] ⟨[rateA]⟩ (by decide) rfl (by decide) (by decide)
      (by
        intro r hr
        simp at hr
        subst hr
        exact ⟨by decide, 25 / 2, jsNumber_12_50, by norm_num⟩)).1.2.1⟩,
   ⟨(C8_wellformed_rates_amended envA "ORDER_1"
      ⟨some ["SHIP_1"], some ⟨some "Ada", some "Paris", some "TX"⟩⟩
      "SHIP_1" [] ⟨[rateA]⟩ (by decide) rfl (by decide) (by decide)
      (by
        intro r hr
        simp at hr
        subst hr
        exact ⟨by decide, 25 / 2, jsNumber_12_50, by norm_num⟩)).2.1,
    (C8_wellformed_rates_amended envA "ORDER_1"
      ⟨some ["SHIP_1"], some ⟨some "Ada", some "Paris", some "TX"⟩⟩
      "SHIP_1" [] ⟨[rateA]⟩ (by decide) rfl (by decide) (by decide)
      (by
        intro r hr
        simp at hr
        subst hr
        exact ⟨by decide, 25 / 2, jsNumber_12_50, by norm_num⟩)).2.2.1⟩⟩

/-- C9 counterexample: the part_001 `shippoFetch` throws
`JSON.stringify(data)` on a non-ok response — the failure carries the
upstream body but not the upstream status code (here 500). -/
theorem C9_status_missing_counterexample :
    shippoFetchResult_part001 ⟨false, 500, "\x7b\"detail\":\"label purchase failed\"\x7d"⟩ =
      .error "\x7b\"detail\":\"label purchase failed\"\x7d"
    ∧ ¬ strContains "\x7b\"detail\":\"label purchase failed\"\x7d" (toString (500 : Nat)) := by
  decide

/-- C9 amended: every `shippoFetch` call attaches the `ShippoToken`
authorization header (whenever the caller's own headers do not override
it, and no call in the repository does); on a non-ok upstream status the
server.js/part_000 variant fails with a message carrying both the status
code and the body, while the part_001 variant's failure carries only the
body. -/
theorem C9_provider_client_amended (token : String) (extra : List (String × String))
    (resp : UpstreamResp)
    (hextra : extra.find? (fun q => q.1 = "Authorization") = none)
    (hok : resp.ok = false) :
    shippoHeaders token extra "Authorization" = some ("ShippoToken " ++ token)
    ∧ (∃ m, shippoFetchResult_serverJs resp = .error m
        ∧ strContains m (toString resp.status) ∧ strContains m resp.bodyText)
    ∧ shippoFetchResult_part001 resp = .error resp.bodyText := by
  refine ⟨?_, ⟨"Shippo error " ++ toString resp.status ++ ": " ++ resp.bodyText, ?_, ?_, ?_⟩, ?_⟩
  · simp [shippoHeaders, jsSpreadLookup, hextra]
  · simp [shippoFetchResult_serverJs, hok]
  · exact ⟨"Shippo error ".data, (": " ++ resp.bodyText).data,
      by simp [String.data_append, List.append_assoc]⟩
  · exact ⟨("Shippo error " ++ toString resp.status ++ ": ").data, [],
      by simp [String.data_append, List.append_assoc]⟩
  · simp [shippoFetchResult_part001, hok]

theorem C9_provider_client_amended_witness :
    shippoHeaders "tok1" [] "Authorization" = some ("ShippoToken " ++ "tok1") :=
  (C9_provider_client_amended "tok1" [] ⟨false, 404, "not found"⟩ rfl rfl).1

/-- C10: when the order and shipment are found, the rate-inquiry handlers
of server.js and part_000 answer 200 with the complete normalized rate
list for ANY `to_address` — in particular a missing address gives
customer fields `undefined` (server.js) or name `"Customer"`
(part_000). -/
theorem C10_missing_address_ok (env : Env) (tok : String) (order : ShippoOrder)
    (s0 : String) (srest : List String) (shipment : ShippoShipment)
    (ho : env.orders tok = .ok order)
    (hs : order.shipments = some (s0 :: srest))
    (hsh : env.shipments s0 = .ok shipment) :
    (getShipping_serverJs env tok).status = 200
    ∧ respRates (getShipping_serverJs env tok) = shipment.rates.map mapRate
    ∧ (getShipping_part000 env tok).status = 200
    ∧ respRates (getShipping_part000 env tok) = shipment.rates.map mapRate
    ∧ (order.to_address = none →
        getShipping_serverJs env tok =
          ⟨200, .success (some ⟨none, none, none⟩) (shipment.rates.map mapRate)⟩
        ∧ getShipping_part000 env tok =
          ⟨200, .success (some ⟨some "Customer", none, none⟩) (shipment.rates.map mapRate)⟩) := by
  refine ⟨?_, ?_, ?_, ?_, fun ha => ⟨?_, ?_⟩⟩ <;>
    simp [getShipping_serverJs, getShipping_part000, respRates, ho, hs, hsh]
  · simp [*]
  · simp [*, jsOrDefault]

theorem C10_missing_address_ok_witness :
    (getShipping_serverJs envBad "ORDER_B").status = 200
    ∧ respRates (getShipping_serverJs envBad "ORDER_B") = [rateBad].map mapRate :=
  ⟨(C10_missing_address_ok envBad "ORDER_B" ⟨some ["SHIP_B"], none⟩ "SHIP_B" [] ⟨[rateBad]⟩
      (by decide) rfl (by decide)).1,
   (C10_missing_address_ok envBad "ORDER_B" ⟨some ["SHIP_B"], none⟩ "SHIP_B" [] ⟨[rateBad]⟩
      (by decide) rfl (by decide)).2.1⟩

end ShippingApi
